import Mathlib

/-!
Shallow embedding of the ScanNet dataparser
(`nerfstudio/data/dataparsers/scannet_dataparser.py`) and proofs about its
frame sanitization, train/eval splitting, pose normalization and scaling, and
point-cloud co-registration.

Pose files are modelled as 4x4 matrices over `PVal` (a rational value or an
infinity marker, since the source filters with `np.isinf`).  Real-valued
arithmetic from the source is modelled over `ℚ`.
-/

/-- A parsed pose-file entry: either a finite value or an infinity marker
(the source checks `np.isinf(pose).any()`). -/
inductive PVal where
  | fin (q : ℚ)
  | inf

/-- `np.isinf` on one entry. -/
def PVal.isInf : PVal → Bool
  | .fin _ => false
  | .inf => true

/-- The rational value of a finite entry (junk value 0 on the marker; only
applied to matrices that survived the finiteness filter). -/
def PVal.toRat : PVal → ℚ
  | .fin q => q
  | .inf => 0

instance : Neg PVal :=
  ⟨fun v => match v with | .fin q => .fin (-q) | .inf => .inf⟩

abbrev RawMat : Type := Fin 4 → Fin 4 → PVal
abbrev Pose4 : Type := Fin 4 → Fin 4 → ℚ
abbrev Pose3 : Type := Fin 3 → Fin 4 → ℚ
abbrev TransformMat : Type := Fin 3 → Fin 4 → ℚ
abbrev Mat3 : Type := Fin 3 → Fin 3 → ℚ
abbrev Pt3 : Type := Fin 3 → ℚ

/-- The in-place convention flip `pose[:3, 1] *= -1; pose[:3, 2] *= -1`
(lines 97-98 of the source), over any entry type with a negation. -/
def flipMat {α : Type} [Neg α] (p : Fin 4 → Fin 4 → α) : Fin 4 → Fin 4 → α :=
  fun i j => if i.val < 3 ∧ (j = 1 ∨ j = 2) then -(p i j) else p i j

/-- `np.isinf(pose).any()` (line 101 of the source). -/
def hasInf (p : RawMat) : Bool := decide (∃ i j, (p i j).isInf = true)

/-- Extract the rational matrix of a fully finite raw matrix. -/
def toRatMat (p : RawMat) : Pose4 := fun i j => (p i j).toRat

/-- One frame as enumerated by the loader: image path, depth path, parsed raw
pose matrix (paths are modelled as strings; decoding is out of scope). -/
structure RawFrame where
  image : String
  depth : String
  pose : RawMat

/-- A frame survives sanitization iff its flipped pose has no infinite entry
(lines 97-102 of the source). -/
def frameValid (f : RawFrame) : Bool := !hasInf (flipMat f.pose)

/-- The sanitization loop (lines 94-107): for each frame, flip the pose and,
when no entry is infinite, append image path, depth path, a copy of the shared
intrinsics `K` and the pose to the four parallel lists. -/
def sanitizeLists (K : Mat3) : List RawFrame → List String × List String × List Mat3 × List Pose4
  | [] => ([], [], [], [])
  | f :: rest =>
    let r := sanitizeLists K rest
    if frameValid f then
      (f.image :: r.1, f.depth :: r.2.1, K :: r.2.2.1, toRatMat (flipMat f.pose) :: r.2.2.2)
    else r

/-- `center_method` configuration value (`"poses" | "focus" | "none"`). -/
inductive CenterMethod where
  | poses
  | focus
  | none

/-- A filesystem path, modelled as its list of components. -/
abbrev FsPath : Type := List String

/-- `Path.name`: the final component. -/
def FsPath.name (p : FsPath) : String := (p.getLast?).getD ""

/-- `Path / component`. -/
def FsPath.join (p : FsPath) (s : String) : FsPath := p ++ [s]

/-- The class-level default of the `data` field:
`Path("./nvsmask3d/data/scene_example")`. -/
def defaultData : FsPath := ["nvsmask3d", "data", "scene_example"]

/-- The class-level default of `ply_file_path`.  In the source this dataclass
field default is the expression `data / (data.name + ".ply")`, evaluated once
at class-definition time with the class-level default `data`; it is therefore
a fixed path, not a function of a per-instance `data` override. -/
def defaultPlyFilePath : FsPath := FsPath.join defaultData (FsPath.name defaultData ++ ".ply")

/-- `ScanNetDataParserConfig` (lines 32-70 of the source). -/
structure ScanNetDataParserConfig where
  data : FsPath
  scaleFactor : ℚ
  sceneScale : ℚ
  centerMethod : CenterMethod
  autoScalePoses : Bool
  trainSplitFraction : ℚ
  depthUnitScaleFactor : ℚ
  load3DPoints : Bool
  pointCloudColor : Bool
  plyFilePath : FsPath

/-- Dataclass construction of `ScanNetDataParserConfig` where `data` may be
overridden and `ply_file_path` may be overridden or left at its default.  All
remaining fields take their declared defaults.  Crucially, the default of
`ply_file_path` is `defaultPlyFilePath` (computed from the class-level default
`data`), mirroring Python dataclass field-default evaluation. -/
def mkScanNetConfig (data : FsPath) (ply : Option FsPath) : ScanNetDataParserConfig where
  data := data
  scaleFactor := 1
  sceneScale := 1
  centerMethod := .poses
  autoScalePoses := true
  trainSplitFraction := 9/10
  depthUnitScaleFactor := 1/1000
  load3DPoints := true
  pointCloudColor := true
  plyFilePath := ply.getD defaultPlyFilePath

/-- `num_train_images = math.ceil(num_images * train_split_fraction)`
(line 111). -/
def numTrainImages (n : ℕ) (f : ℚ) : ℕ := (⌈(n : ℚ) * f⌉).toNat

/-- `i_train = np.linspace(0, num_images - 1, num_train_images, dtype=int)`
(lines 114-116): `nTrain` evenly spaced values over `[0, n-1]`, truncated to
integers; value `k` maps to `⌊k * (n-1) / (nTrain-1)⌋`.  (For `nTrain = 1`
`np.linspace` returns `[0]`, which the formula also yields since natural
division by zero is zero.) -/
def iTrainList (n nTrain : ℕ) : List ℕ :=
  (List.range nTrain).map (fun k => k * (n - 1) / (nTrain - 1))

/-- `i_eval = np.setdiff1d(i_all, i_train)` (line 117): the ascending list of
indices in `[0, n)` not selected for train. -/
def iEvalList (n nTrain : ℕ) : List ℕ :=
  (List.range n).filter (fun i => decide (i ∉ iTrainList n nTrain))

/-- The split dispatch (lines 119-124): `"train"` selects the train indices,
`"val"` and `"test"` the eval indices, anything else raises
`ValueError(f"Unknown dataparser split {split}")`. -/
def selectSplitIndices (split : String) (iTr iEv : List ℕ) : Except String (List ℕ) :=
  if split = "train" then .ok iTr
  else if split = "val" ∨ split = "test" then .ok iEv
  else .error ("Unknown dataparser split " ++ split)

/-- Modelled from the spec: `camera_utils.auto_orient_and_center_poses` is
repository code not under `src/`.  Per the spec (§4.4), with orientation
method `"none"` no axes are re-oriented and the transform only centers:
`"poses"` centers on the average camera position, `"none"` disables
centering, and `"focus"` centers on an estimated look-at point.  The spec
gives no formula for the look-at estimation; it is modelled here as the
average of the per-camera look-at points one unit along the viewing
direction (camera origin minus the pose's third rotation column). -/
def centerPoint (poses : List Pose4) (m : CenterMethod) : Pt3 :=
  match m with
  | .none => fun _ => 0
  | .poses => fun i => (poses.map (fun p => p i.castSucc 3)).sum / (poses.length : ℚ)
  | .focus => fun i => (poses.map (fun p => p i.castSucc 3 - p i.castSucc 2)).sum / (poses.length : ℚ)

/-- The 3x4 centering transform `[I | -c]` produced for orientation method
`"none"` with centering translation `c`. -/
def transformOf (c : Pt3) : TransformMat := fun i j =>
  if j.val = i.val then 1 else if j.val = 3 then -(c i) else 0

/-- `transform @ pose`: apply the 3x4 transform to a 4x4 pose, giving a 3x4
pose. -/
def applyTransform (T : TransformMat) (p : Pose4) : Pose3 := fun i j =>
  T i 0 * p 0 j + T i 1 * p 1 j + T i 2 * p 2 j + T i 3 * p 3 j

/-- Modelled from the spec: `auto_orient_and_center_poses(poses, method="none",
center_method=...)` (line 129).  Returns the transformed poses and the single
3x4 transform, both derived from the full pose list. -/
def autoOrientAndCenterPoses (poses : List Pose4) (m : CenterMethod) : List Pose3 × TransformMat :=
  let T := transformOf (centerPoint poses m)
  (poses.map (applyTransform T), T)

/-- `float(torch.max(torch.abs(poses[:, :3, 3])))` (line 138): the maximum
absolute translation component over all (transformed) poses. -/
def maxAbsTranslation (ps : List Pose3) : ℚ :=
  (ps.map (fun p => max |p 0 3| (max |p 1 3| |p 2 3|))).foldr max 0

/-- Lines 136-139: `scale_factor = 1.0`; if `auto_scale_poses`, divide by the
maximum absolute translation component (Python float division raises
`ZeroDivisionError: float division by zero` when the divisor is zero); then
multiply by the configured `scale_factor`. -/
def computeScaleFactor (cfg : ScanNetDataParserConfig) (centered : List Pose3) : Except String ℚ :=
  if cfg.autoScalePoses then
    (if maxAbsTranslation centered = 0 then .error "float division by zero"
     else .ok (1 / maxAbsTranslation centered * cfg.scaleFactor))
  else .ok (1 * cfg.scaleFactor)

/-- `poses[:, :3, 3] *= scale_factor` (line 141) on one 3x4 pose: multiply the
translation column, leave the rest. -/
def scalePose (s : ℚ) (p : Pose3) : Pose3 := fun i j => if j.val = 3 then s * p i j else p i j

/-- One point of `torch.cat((points3D, ones), -1) @ transform_matrix.T`
(lines 216-225): homogenize (append 1) and right-multiply by the transpose of
the 3x4 transform. -/
def transformPoint (T : TransformMat) (v : Pt3) : Pt3 :=
  fun i => v 0 * T i 0 + v 1 * T i 1 + v 2 * T i 2 + 1 * T i 3

/-- `_load_3D_points` (lines 191-235): `none` when the file holds zero points;
otherwise the positions homogenized, right-multiplied by the transform's
transpose and then multiplied by the scalar scale, plus (optionally) the
colors converted to bytes by `(colors * 255).astype(np.uint8)`. -/
def load3DPoints (pts : List Pt3) (T : TransformMat) (scale : ℚ) (color : Bool) (cols : List Pt3) :
    Option (List Pt3 × Option (List (Fin 3 → ℤ))) :=
  if pts.length = 0 then none
  else
    some (pts.map (fun p => fun i => scale * transformPoint T p i),
      if color then some (cols.map (fun c => fun i => (⌊c i * 255⌋) % 256)) else none)

/-- The final bundle (`DataparserOutputs`, lines 181-188, with the camera
fields of lines 158-167 inlined). -/
structure DataparserOutputs where
  imageFilenames : List String
  fx : List ℚ
  fy : List ℚ
  cx : List ℚ
  cy : List ℚ
  cameraToWorlds : List Pose3
  sceneBoxLo : Pt3
  sceneBoxHi : Pt3
  dataparserScale : ℚ
  dataparserTransform : TransformMat
  depthFilenames : Option (List String)
  depthUnitScaleFactor : ℚ
  points3Dxyz : Option (List Pt3)
  points3Drgb : Option (List (Fin 3 → ℤ))

/-- Lines 143-188: gather paths/intrinsics/poses at the split indices, build
the scene box, camera fields, metadata and the output bundle. -/
def assembleOutputs (cfg : ScanNetDataParserConfig) (indices : List ℕ)
    (imgs deps : List String) (ins : List Mat3) (scaled : List Pose3)
    (T : TransformMat) (scale : ℚ) (pts cols : List Pt3) : DataparserOutputs :=
  let selImgs := indices.map (fun i => imgs.getD i "")
  let selDeps := if 0 < deps.length then indices.map (fun i => deps.getD i "") else []
  let selIns := indices.map (fun i => ins.getD i (fun _ _ => 0))
  let selPoses := indices.map (fun i => scaled.getD i (fun _ _ => 0))
  let pcd := if cfg.load3DPoints then load3DPoints pts T scale cfg.pointCloudColor cols
             else Option.none
  { imageFilenames := selImgs
    fx := selIns.map (fun k => k 0 0)
    fy := selIns.map (fun k => k 1 1)
    cx := selIns.map (fun k => k 0 2)
    cy := selIns.map (fun k => k 1 2)
    cameraToWorlds := selPoses
    sceneBoxLo := fun _ => -cfg.sceneScale
    sceneBoxHi := fun _ => cfg.sceneScale
    dataparserScale := scale
    dataparserTransform := T
    depthFilenames := if 0 < selDeps.length then some selDeps else Option.none
    depthUnitScaleFactor := cfg.depthUnitScaleFactor
    points3Dxyz := Option.map (fun d => d.1) pcd
    points3Drgb := Option.bind pcd (fun d => d.2) }

/-- The pipeline from `np.stack(poses)` (line 126) on: fails when no valid
pose remains (`np.stack` of an empty list raises), then normalizes the full
pose list, computes the scale, scales the translations and assembles the
outputs for the given gather indices. -/
def generateAfterSplit (cfg : ScanNetDataParserConfig) (imgs deps : List String)
    (ins : List Mat3) (poses : List Pose4) (pts cols : List Pt3) (indices : List ℕ) :
    Except String DataparserOutputs :=
  if poses.length = 0 then .error "need at least one array to stack"
  else
    let pr := autoOrientAndCenterPoses poses cfg.centerMethod
    match computeScaleFactor cfg pr.1 with
    | .error e => .error e
    | .ok scale =>
      .ok (assembleOutputs cfg indices imgs deps ins (pr.1.map (scalePose scale)) pr.2 scale pts cols)

/-- `_generate_dataparser_outputs` (lines 79-189): sanitize the frames,
compute the split index sets from the count of valid frames, check the
`assert len(i_eval) == num_eval_images` contract (an `Int` equality, since
`num_eval_images` may be negative in Python), dispatch on the split name, and
run the remaining pipeline.  The directory tree is passed as the already
enumerated, ID-sorted frame list plus the shared intrinsics and the parsed
point-cloud contents. -/
def generateDataparserOutputs (cfg : ScanNetDataParserConfig) (K : Mat3)
    (frames : List RawFrame) (pts cols : List Pt3) (split : String) :
    Except String DataparserOutputs :=
  let r := sanitizeLists K frames
  let n := r.1.length
  let nTrain := numTrainImages n cfg.trainSplitFraction
  let iTr := iTrainList n nTrain
  let iEv := iEvalList n nTrain
  if ((iEv.length : ℤ) = (n : ℤ) - (nTrain : ℤ)) then
    match selectSplitIndices split iTr iEv with
    | .error e => .error e
    | .ok indices => generateAfterSplit cfg r.1 r.2.1 r.2.2.1 r.2.2.2 pts cols indices
  else .error "AssertionError"

/-- A shared-intrinsics example matrix. -/
def exK : Mat3 := fun _ _ => 1

/-- An example raw pose: identity rotation with translation (1,0,0), bottom
row (0,0,0,1), all entries finite. -/
def exPoseA : RawMat := fun i j =>
  if i = j then .fin 1 else if i.val = 0 ∧ j.val = 3 then .fin 1 else .fin 0

/-- An example raw pose: identity matrix (zero translation). -/
def exPoseZero : RawMat := fun i j => if i = j then .fin 1 else .fin 0

/-- An example raw pose with an infinite entry. -/
def exPoseInf : RawMat := fun i j =>
  if i.val = 0 ∧ j.val = 0 then .inf else exPoseA i j

/-- Example configuration: defaults except `center_method = "none"`. -/
def exCfg : ScanNetDataParserConfig where
  data := defaultData
  scaleFactor := 1
  sceneScale := 1
  centerMethod := .none
  autoScalePoses := true
  trainSplitFraction := 9/10
  depthUnitScaleFactor := 1/1000
  load3DPoints := true
  pointCloudColor := true
  plyFilePath := defaultPlyFilePath

/-- Example frame list with one valid frame. -/
def exFrames : List RawFrame := [⟨"0.jpg", "0.png", exPoseA⟩]

/-- Example frame list whose single frame has an all-zero translation. -/
def exFramesZero : List RawFrame := [⟨"0.jpg", "0.png", exPoseZero⟩]

/-- Example frame list with one valid frame and one frame holding an infinite
pose entry. -/
def exFramesC3 : List RawFrame := [⟨"0.jpg", "0.png", exPoseA⟩, ⟨"1.jpg", "1.png", exPoseInf⟩]

/-- Example point-cloud positions. -/
def exPts : List Pt3 := [fun _ => 1]

/-- Example point-cloud colors. -/
def exCols : List Pt3 := [fun _ => 1]

/-- The identity 4x4 rational pose. -/
def exIdPose : Pose4 := fun i j => if i = j then 1 else 0

/-- The sanitized pose of `exPoseA`. -/
def exP : Pose4 := toRatMat (flipMat exPoseA)

/-- The centered pose list of the single-frame example. -/
def exCentered : List Pose3 := (autoOrientAndCenterPoses [exP] CenterMethod.none).1

/-- The normalization transform of the single-frame example. -/
def exT : TransformMat := (autoOrientAndCenterPoses [exP] CenterMethod.none).2

/-- The scale factor of the single-frame example. -/
def exScale : ℚ := 1 / maxAbsTranslation exCentered * exCfg.scaleFactor

/-- The full output bundle of the single-frame example on split "train". -/
def exOutV : DataparserOutputs :=
  assembleOutputs exCfg [0] ["0.jpg"] ["0.png"] [exK] (exCentered.map (scalePose exScale))
    exT exScale exPts exCols

namespace FinLit

lemma v30 : ((0 : Fin 3)).val = 0 := rfl

lemma v31 : ((1 : Fin 3)).val = 1 := rfl

lemma v32 : ((2 : Fin 3)).val = 2 := rfl

lemma v33 : ((3 : Fin 4)).val = 3 := rfl

lemma v40 : ((0 : Fin 4)).val = 0 := rfl

lemma v41 : ((1 : Fin 4)).val = 1 := rfl

lemma v42 : ((2 : Fin 4)).val = 2 := rfl

lemma v43 : ((3 : Fin 4)).val = 3 := rfl

end FinLit

lemma iTrain_mono {n nT a b : ℕ} (hle : nT ≤ n) (hab : a < b) (hb : b < nT) :
    a * (n - 1) / (nT - 1) < b * (n - 1) / (nT - 1) := by
  have hd : 0 < nT - 1 := by omega
  have hstep : a * (n - 1) + (nT - 1) ≤ b * (n - 1) := by
    have h1 : (a + 1) * (n - 1) ≤ b * (n - 1) := Nat.mul_le_mul_right _ (by omega)
    have h2 : (a + 1) * (n - 1) = a * (n - 1) + (n - 1) := by ring
    omega
  have h3 : a * (n - 1) / (nT - 1) + 1 ≤ b * (n - 1) / (nT - 1) := by
    rw [← Nat.add_div_right _ hd]
    exact Nat.div_le_div_right hstep
  omega

lemma iTrain_pairwise (n nT : ℕ) (hle : nT ≤ n) : (iTrainList n nT).Pairwise (· < ·) := by
  unfold iTrainList
  refine List.pairwise_map.2 ?_
  refine List.Pairwise.imp_of_mem ?_ (List.pairwise_lt_range nT)
  intro a b ha hb hab
  exact iTrain_mono hle hab (List.mem_range.1 hb)

lemma iTrain_nodup (n nT : ℕ) (hle : nT ≤ n) : (iTrainList n nT).Nodup :=
  (iTrain_pairwise n nT hle).nodup

lemma iTrain_length (n nT : ℕ) : (iTrainList n nT).length = nT := by
  simp [iTrainList]

lemma iTrain_bound {n nT : ℕ} (hle : nT ≤ n) : ∀ x ∈ iTrainList n nT, x < n := by
  intro x hx
  unfold iTrainList at hx
  obtain ⟨k, hk, rfl⟩ := List.mem_map.1 hx
  have hkn : k < nT := List.mem_range.1 hk
  have hn : 1 ≤ n := by omega
  rcases Nat.lt_or_ge nT 2 with h2 | h2
  · have hk0 : k = 0 := by omega
    subst hk0
    simpa using hn
  · have hkle : k ≤ nT - 1 := by omega
    have hd : 0 < nT - 1 := by omega
    have := Nat.div_le_div_right (c := nT - 1) (Nat.mul_le_mul_right (n - 1) hkle)
    rw [Nat.mul_div_cancel_left _ hd] at this
    omega

lemma iEval_mem (n nT x : ℕ) : x ∈ iEvalList n nT ↔ x < n ∧ x ∉ iTrainList n nT := by
  simp [iEvalList, List.mem_filter, List.mem_range]

lemma iEval_pairwise (n nT : ℕ) : (iEvalList n nT).Pairwise (· < ·) :=
  List.Pairwise.filter _ (List.pairwise_lt_range n)

lemma filter_in_eq (n nT : ℕ) (hle : nT ≤ n) :
    (List.range n).filter (fun i => decide (i ∈ iTrainList n nT)) = iTrainList n nT := by
  have h1 : ((List.range n).filter (fun i => decide (i ∈ iTrainList n nT))).Pairwise (· < ·) :=
    List.Pairwise.filter _ (List.pairwise_lt_range n)
  have h2 := iTrain_pairwise n nT hle
  have hmem : ∀ a, a ∈ (List.range n).filter (fun i => decide (i ∈ iTrainList n nT)) ↔
      a ∈ iTrainList n nT := by
    intro a
    simp only [List.mem_filter, List.mem_range, decide_eq_true_eq]
    exact ⟨fun h => h.2, fun h => ⟨iTrain_bound hle a h, h⟩⟩
  have hperm := (List.perm_ext_iff_of_nodup h1.nodup h2.nodup).2 hmem
  exact List.eq_of_perm_of_sorted hperm h1 h2

lemma iEval_length {n nT : ℕ} (hle : nT ≤ n) : (iEvalList n nT).length = n - nT := by
  have h := List.length_eq_length_filter_add
    (l := List.range n) (fun i => decide (i ∈ iTrainList n nT))
  rw [filter_in_eq n nT hle, iTrain_length] at h
  have he : iEvalList n nT
      = (List.range n).filter (fun i => !(decide (i ∈ iTrainList n nT))) := by
    simp [iEvalList]
  rw [he]
  simp only [List.length_range] at h
  omega

lemma numTrain_le {n : ℕ} {f : ℚ} (hf0 : 0 ≤ f) (hf2 : f ≤ 1) : numTrainImages n f ≤ n := by
  unfold numTrainImages
  have h1 : (n : ℚ) * f ≤ (n : ℚ) := by
    calc (n : ℚ) * f ≤ (n : ℚ) * 1 := by
          exact mul_le_mul_of_nonneg_left hf2 (by positivity)
      _ = (n : ℚ) := mul_one _
  have h2 : ⌈(n : ℚ) * f⌉ ≤ (n : ℤ) := by
    calc ⌈(n : ℚ) * f⌉ ≤ ⌈(n : ℚ)⌉ := Int.ceil_le_ceil h1
      _ = (n : ℤ) := Int.ceil_natCast n
  omega

lemma numTrain_pos {n : ℕ} {f : ℚ} (hn : 1 ≤ n) (hf1 : 0 < f) : 1 ≤ numTrainImages n f := by
  unfold numTrainImages
  have h0 : (0 : ℚ) < (n : ℚ) * f := by
    have : (0 : ℚ) < (n : ℚ) := by exact_mod_cast hn
    positivity
  have := Int.ceil_pos.2 h0
  omega

lemma numTrain_eq {n m : ℕ} {f : ℚ} (h1 : (m : ℚ) - 1 < (n : ℚ) * f)
    (h2 : (n : ℚ) * f ≤ (m : ℚ)) : numTrainImages n f = m := by
  unfold numTrainImages
  have hz : ⌈(n : ℚ) * f⌉ = (m : ℤ) := by
    rw [Int.ceil_eq_iff]
    constructor <;> push_cast <;> linarith
  rw [hz]
  simp

lemma assert_passes {n : ℕ} {f : ℚ} (hf1 : 0 < f) (hf2 : f ≤ 1) :
    ((iEvalList n (numTrainImages n f)).length : ℤ)
      = (n : ℤ) - ((numTrainImages n f) : ℤ) := by
  have hle : numTrainImages n f ≤ n := numTrain_le hf1.le hf2
  have := iEval_length (n := n) hle
  omega

lemma genAfter_map_eq (cfg : ScanNetDataParserConfig) (imgs deps : List String)
    (ins : List Mat3) (poses : List Pose4) (pts cols : List Pt3) (i1 i2 : List ℕ) :
    Except.map (fun o => (o.dataparserTransform, o.dataparserScale))
      (generateAfterSplit cfg imgs deps ins poses pts cols i1)
    = Except.map (fun o => (o.dataparserTransform, o.dataparserScale))
      (generateAfterSplit cfg imgs deps ins poses pts cols i2) := by
  unfold generateAfterSplit
  by_cases h : poses.length = 0
  · simp [h]
  · simp only [h, if_false]
    cases hs : computeScaleFactor cfg (autoOrientAndCenterPoses poses cfg.centerMethod).1 with
    | error e => simp [hs]
    | ok s => simp [hs, Except.map, assembleOutputs]

lemma select_valid {s : String} (h : s = "train" ∨ s = "val" ∨ s = "test") (a b : List ℕ) :
    selectSplitIndices s a b = .ok a ∨ selectSplitIndices s a b = .ok b := by
  rcases h with rfl | rfl | rfl <;> simp [selectSplitIndices]

lemma select_ok_cases {s : String} {a b c : List ℕ}
    (h : selectSplitIndices s a b = .ok c) : c = a ∨ c = b := by
  unfold selectSplitIndices at h
  split at h
  · exact Or.inl (Except.ok.inj h).symm
  · split at h
    · exact Or.inr (Except.ok.inj h).symm
    · exact absurd h (by simp)

lemma select_train (a b : List ℕ) : selectSplitIndices "train" a b = .ok a := rfl

lemma select_val_eq_test (a b : List ℕ) :
    selectSplitIndices "val" a b = selectSplitIndices "test" a b := rfl

lemma sanitize_eq (K : Mat3) (fs : List RawFrame) :
    sanitizeLists K fs
      = ((fs.filter frameValid).map (fun f => f.image),
         (fs.filter frameValid).map (fun f => f.depth),
         (fs.filter frameValid).map (fun _ => K),
         (fs.filter frameValid).map (fun f => toRatMat (flipMat f.pose))) := by
  induction fs with
  | nil => rfl
  | cons f rest ih =>
    by_cases h : frameValid f
    · simp [sanitizeLists, List.filter_cons, h, ih]
    · simp [sanitizeLists, List.filter_cons, h, ih]

lemma sanitize_poses_length (K : Mat3) (fs : List RawFrame) :
    (sanitizeLists K fs).2.2.2.length = (sanitizeLists K fs).1.length := by
  rw [sanitize_eq]
  simp

lemma filter_valid_length (fs : List RawFrame) :
    (fs.filter frameValid).length
      = fs.length - fs.countP (fun f => !(frameValid f)) := by
  have h := List.length_eq_length_filter_add (l := fs) frameValid
  have h2 : (fs.filter (fun f => !(frameValid f))).length
      = fs.countP (fun f => !(frameValid f)) :=
    (List.countP_eq_length_filter _ _).symm
  omega

@[simp] lemma assemble_scale (cfg : ScanNetDataParserConfig) (indices : List ℕ)
    (imgs deps : List String) (ins : List Mat3) (scaled : List Pose3)
    (T : TransformMat) (scale : ℚ) (pts cols : List Pt3) :
    (assembleOutputs cfg indices imgs deps ins scaled T scale pts cols).dataparserScale
      = scale := rfl

@[simp] lemma assemble_transform (cfg : ScanNetDataParserConfig) (indices : List ℕ)
    (imgs deps : List String) (ins : List Mat3) (scaled : List Pose3)
    (T : TransformMat) (scale : ℚ) (pts cols : List Pt3) :
    (assembleOutputs cfg indices imgs deps ins scaled T scale pts cols).dataparserTransform
      = T := rfl

@[simp] lemma assemble_c2w (cfg : ScanNetDataParserConfig) (indices : List ℕ)
    (imgs deps : List String) (ins : List Mat3) (scaled : List Pose3)
    (T : TransformMat) (scale : ℚ) (pts cols : List Pt3) :
    (assembleOutputs cfg indices imgs deps ins scaled T scale pts cols).cameraToWorlds
      = indices.map (fun i => scaled.getD i (fun _ _ => 0)) := rfl

@[simp] lemma assemble_images (cfg : ScanNetDataParserConfig) (indices : List ℕ)
    (imgs deps : List String) (ins : List Mat3) (scaled : List Pose3)
    (T : TransformMat) (scale : ℚ) (pts cols : List Pt3) :
    (assembleOutputs cfg indices imgs deps ins scaled T scale pts cols).imageFilenames
      = indices.map (fun i => imgs.getD i "") := rfl

@[simp] lemma assemble_xyz (cfg : ScanNetDataParserConfig) (indices : List ℕ)
    (imgs deps : List String) (ins : List Mat3) (scaled : List Pose3)
    (T : TransformMat) (scale : ℚ) (pts cols : List Pt3) :
    (assembleOutputs cfg indices imgs deps ins scaled T scale pts cols).points3Dxyz
      = Option.map (fun d => d.1)
          (if cfg.load3DPoints then load3DPoints pts T scale cfg.pointCloudColor cols
           else Option.none) := rfl

lemma generate_ok_inv {cfg : ScanNetDataParserConfig} {K : Mat3} {frames : List RawFrame}
    {pts cols : List Pt3} {split : String} {out : DataparserOutputs}
    (h : generateDataparserOutputs cfg K frames pts cols split = .ok out) :
    ∃ indices scale,
      selectSplitIndices split
        (iTrainList (sanitizeLists K frames).1.length
          (numTrainImages (sanitizeLists K frames).1.length cfg.trainSplitFraction))
        (iEvalList (sanitizeLists K frames).1.length
          (numTrainImages (sanitizeLists K frames).1.length cfg.trainSplitFraction))
        = .ok indices
      ∧ (sanitizeLists K frames).2.2.2.length ≠ 0
      ∧ computeScaleFactor cfg
          (autoOrientAndCenterPoses (sanitizeLists K frames).2.2.2 cfg.centerMethod).1
          = .ok scale
      ∧ out = assembleOutputs cfg indices (sanitizeLists K frames).1
          (sanitizeLists K frames).2.1 (sanitizeLists K frames).2.2.1
          ((autoOrientAndCenterPoses (sanitizeLists K frames).2.2.2 cfg.centerMethod).1.map
            (scalePose scale))
          (autoOrientAndCenterPoses (sanitizeLists K frames).2.2.2 cfg.centerMethod).2
          scale pts cols := by
  unfold generateDataparserOutputs generateAfterSplit at h
  simp only [] at h
  split at h
  · split at h
    · exact absurd h (by simp)
    · rename_i indices heq
      split at h
      · exact absurd h (by simp)
      · split at h
        · exact absurd h (by simp)
        · rename_i scale heq2
          refine ⟨indices, scale, heq, by assumption, heq2, ?_⟩
          exact (Except.ok.inj h).symm
  · exact absurd h (by simp)

lemma exSan : sanitizeLists exK exFrames
    = (["0.jpg"], ["0.png"], [exK], [toRatMat (flipMat exPoseA)]) := rfl

lemma hnum11 : numTrainImages 1 ((9:ℚ)/10) = 1 := numTrain_eq (by norm_num) (by norm_num)

lemma exMax : maxAbsTranslation exCentered = 1 := by
  rw [show exCentered = [applyTransform (transformOf (centerPoint [exP] CenterMethod.none)) exP]
      from rfl]
  norm_num [maxAbsTranslation, applyTransform, transformOf, centerPoint, exP, toRatMat,
    flipMat, exPoseA, PVal.toRat, max_def, abs, FinLit.v30, FinLit.v31, FinLit.v32, FinLit.v33,
    FinLit.v40, FinLit.v41, FinLit.v42, FinLit.v43, Fin.ext_iff]

lemma exMaxZero : maxAbsTranslation
    (autoOrientAndCenterPoses (sanitizeLists exK exFramesZero).2.2.2 exCfg.centerMethod).1
    = 0 := by
  rw [show (autoOrientAndCenterPoses (sanitizeLists exK exFramesZero).2.2.2 exCfg.centerMethod).1
      = [applyTransform (transformOf (centerPoint [toRatMat (flipMat exPoseZero)]
          CenterMethod.none)) (toRatMat (flipMat exPoseZero))] from rfl]
  norm_num [maxAbsTranslation, applyTransform, transformOf, centerPoint, toRatMat,
    flipMat, exPoseZero, PVal.toRat, max_def, abs, FinLit.v30, FinLit.v31, FinLit.v32,
    FinLit.v33, FinLit.v40, FinLit.v41, FinLit.v42, FinLit.v43, Fin.ext_iff]

lemma exGen_eq : generateDataparserOutputs exCfg exK exFrames exPts exCols "train"
    = .ok exOutV := by
  have h1 : numTrainImages (sanitizeLists exK exFrames).1.length exCfg.trainSplitFraction
      = 1 := hnum11
  have hcs : computeScaleFactor exCfg
      (autoOrientAndCenterPoses (sanitizeLists exK exFrames).2.2.2 exCfg.centerMethod).1
      = .ok exScale := by
    unfold computeScaleFactor
    rw [if_pos (show exCfg.autoScalePoses = true from rfl)]
    rw [show (autoOrientAndCenterPoses (sanitizeLists exK exFrames).2.2.2 exCfg.centerMethod).1
        = exCentered from rfl]
    rw [if_neg (by rw [exMax]; norm_num)]
    rfl
  unfold generateDataparserOutputs generateAfterSplit
  simp only []
  rw [h1]
  split
  case isTrue =>
    split
    case h_1 e heq =>
      rw [select_train] at heq
      exact Except.noConfusion heq
    case h_2 indices heq =>
      rw [select_train] at heq
      have hind := Except.ok.inj heq
      subst hind
      split
      case isTrue hlen => exact absurd hlen (by decide)
      case isFalse hlen =>
        split
        case h_1 e heq2 =>
          rw [hcs] at heq2
          exact Except.noConfusion heq2
        case h_2 scale heq2 =>
          rw [hcs] at heq2
          have hs := Except.ok.inj heq2
          subst hs
          rfl
  case isFalse h => exact absurd (by decide) h

lemma exCfg_hf1 : 0 < exCfg.trainSplitFraction := by
  rw [show exCfg.trainSplitFraction = 9/10 from rfl]
  norm_num

lemma exCfg_hf2 : exCfg.trainSplitFraction ≤ 1 := by
  rw [show exCfg.trainSplitFraction = 9/10 from rfl]
  norm_num

/-- C1: for every directory tree (frame list, intrinsics, point cloud) and
configuration, requesting any two of the splits "train", "val", "test" yields
the same `dataparser_transform` matrix and the same `dataparser_scale`
scalar (including identical failures), because normalization and scale are
computed from the full valid pose set before any split-index gathering. -/
theorem transform_scale_split_independent (cfg : ScanNetDataParserConfig) (K : Mat3)
    (frames : List RawFrame) (pts cols : List Pt3) (s1 s2 : String)
    (h1 : s1 = "train" ∨ s1 = "val" ∨ s1 = "test")
    (h2 : s2 = "train" ∨ s2 = "val" ∨ s2 = "test") :
    Except.map (fun o => (o.dataparserTransform, o.dataparserScale))
      (generateDataparserOutputs cfg K frames pts cols s1)
    = Except.map (fun o => (o.dataparserTransform, o.dataparserScale))
      (generateDataparserOutputs cfg K frames pts cols s2) := by
  unfold generateDataparserOutputs
  simp only []
  by_cases hassert : ((iEvalList (sanitizeLists K frames).1.length
      (numTrainImages (sanitizeLists K frames).1.length cfg.trainSplitFraction)).length : ℤ)
      = ((sanitizeLists K frames).1.length : ℤ)
        - ((numTrainImages (sanitizeLists K frames).1.length cfg.trainSplitFraction) : ℤ)
  · rcases select_valid h1 (iTrainList (sanitizeLists K frames).1.length
        (numTrainImages (sanitizeLists K frames).1.length cfg.trainSplitFraction))
        (iEvalList (sanitizeLists K frames).1.length
        (numTrainImages (sanitizeLists K frames).1.length cfg.trainSplitFraction))
      with e1 | e1 <;>
    rcases select_valid h2 (iTrainList (sanitizeLists K frames).1.length
        (numTrainImages (sanitizeLists K frames).1.length cfg.trainSplitFraction))
        (iEvalList (sanitizeLists K frames).1.length
        (numTrainImages (sanitizeLists K frames).1.length cfg.trainSplitFraction))
      with e2 | e2 <;>
    simp only [hassert, if_true, e1, e2] <;>
    apply genAfter_map_eq
  · simp only [hassert, if_false]

theorem transform_scale_split_independent_witness :
    ("train" = "train" ∨ "train" = "val" ∨ "train" = "test")
    ∧ ("val" = "train" ∨ "val" = "val" ∨ "val" = "test")
    ∧ Except.map (fun o => (o.dataparserTransform, o.dataparserScale))
        (generateDataparserOutputs exCfg exK exFrames exPts exCols "train")
      = Except.map (fun o => (o.dataparserTransform, o.dataparserScale))
        (generateDataparserOutputs exCfg exK exFrames exPts exCols "val") :=
  ⟨Or.inl rfl, Or.inr (Or.inl rfl),
    transform_scale_split_independent exCfg exK exFrames exPts exCols "train" "val"
      (Or.inl rfl) (Or.inr (Or.inl rfl))⟩

/-- C2: for every number `n ≥ 1` of valid frames and every fraction
`f ∈ (0,1]`, the train index list has exactly `⌈n·f⌉` distinct elements, all
in `[0,n)`; the eval index list is the ascending complement in `[0,n)`; the
two are disjoint; their sizes sum to `n`; and `|eval| = n - ⌈n·f⌉`, so the
`assert` never fires. -/
theorem train_eval_split_partition (n : ℕ) (f : ℚ) (hn : 1 ≤ n) (hf1 : 0 < f) (hf2 : f ≤ 1) :
    (iTrainList n (numTrainImages n f)).Nodup
    ∧ (iTrainList n (numTrainImages n f)).length = numTrainImages n f
    ∧ (∀ x ∈ iTrainList n (numTrainImages n f), x < n)
    ∧ (iEvalList n (numTrainImages n f)).Pairwise (· < ·)
    ∧ (∀ x, x ∈ iEvalList n (numTrainImages n f)
        ↔ x < n ∧ x ∉ iTrainList n (numTrainImages n f))
    ∧ (iTrainList n (numTrainImages n f)).Disjoint (iEvalList n (numTrainImages n f))
    ∧ (iTrainList n (numTrainImages n f)).length
        + (iEvalList n (numTrainImages n f)).length = n
    ∧ ((iEvalList n (numTrainImages n f)).length : ℤ)
        = (n : ℤ) - ((numTrainImages n f) : ℤ) := by
  have hle : numTrainImages n f ≤ n := numTrain_le (le_of_lt hf1) hf2
  have hpos : 1 ≤ numTrainImages n f := numTrain_pos hn hf1
  refine ⟨iTrain_nodup n _ hle, iTrain_length n _, iTrain_bound hle,
    iEval_pairwise n _, iEval_mem n _, ?_, ?_, assert_passes hf1 hf2⟩
  · intro a ha hb
    exact ((iEval_mem n _ a).1 hb).2 ha
  · rw [iTrain_length, iEval_length hle]
    omega

theorem train_eval_split_partition_witness :
    (1 ≤ 10 ∧ (0:ℚ) < 9/10 ∧ (9:ℚ)/10 ≤ 1)
    ∧ ((iTrainList 10 (numTrainImages 10 (9/10))).Nodup
      ∧ (iTrainList 10 (numTrainImages 10 (9/10))).length = numTrainImages 10 (9/10)
      ∧ (∀ x ∈ iTrainList 10 (numTrainImages 10 (9/10)), x < 10)
      ∧ (iEvalList 10 (numTrainImages 10 (9/10))).Pairwise (· < ·)
      ∧ (∀ x, x ∈ iEvalList 10 (numTrainImages 10 (9/10))
          ↔ x < 10 ∧ x ∉ iTrainList 10 (numTrainImages 10 (9/10)))
      ∧ (iTrainList 10 (numTrainImages 10 (9/10))).Disjoint
          (iEvalList 10 (numTrainImages 10 (9/10)))
      ∧ (iTrainList 10 (numTrainImages 10 (9/10))).length
          + (iEvalList 10 (numTrainImages 10 (9/10))).length = 10
      ∧ ((iEvalList 10 (numTrainImages 10 (9/10))).length : ℤ)
          = (10 : ℤ) - ((numTrainImages 10 (9/10)) : ℤ)) :=
  ⟨⟨by norm_num, by norm_num, by norm_num⟩,
    train_eval_split_partition 10 (9/10) (by norm_num) (by norm_num) (by norm_num)⟩

/-- C3: for every sequence of parsed frames, a frame is kept only if its
axis-flipped pose is entirely finite; image path, depth path, intrinsics copy
and pose are dropped together, the four parallel lists stay the same length
and in the original order (all four equal maps over the same filtered frame
list); and whenever the sequence contains exactly one non-finite pose the
four lists have size `N - 1`. -/
theorem sanitizer_drops_nonfinite_frames (K : Mat3) (fs : List RawFrame) :
    ((sanitizeLists K fs).1 = (fs.filter frameValid).map (fun f => f.image)
      ∧ (sanitizeLists K fs).2.1 = (fs.filter frameValid).map (fun f => f.depth)
      ∧ (sanitizeLists K fs).2.2.1 = (fs.filter frameValid).map (fun _ => K)
      ∧ (sanitizeLists K fs).2.2.2
          = (fs.filter frameValid).map (fun f => toRatMat (flipMat f.pose)))
    ∧ ((sanitizeLists K fs).1.length = (sanitizeLists K fs).2.1.length
      ∧ (sanitizeLists K fs).1.length = (sanitizeLists K fs).2.2.1.length
      ∧ (sanitizeLists K fs).1.length = (sanitizeLists K fs).2.2.2.length)
    ∧ (fs.countP (fun f => !(frameValid f)) = 1 →
        (sanitizeLists K fs).1.length = fs.length - 1
        ∧ (sanitizeLists K fs).2.1.length = fs.length - 1
        ∧ (sanitizeLists K fs).2.2.1.length = fs.length - 1
        ∧ (sanitizeLists K fs).2.2.2.length = fs.length - 1) := by
  have h := sanitize_eq K fs
  rw [h]
  refine ⟨⟨rfl, rfl, rfl, rfl⟩, ⟨by simp, by simp, by simp⟩, ?_⟩
  intro hone
  have hlen := filter_valid_length fs
  rw [hone] at hlen
  simp [hlen]

theorem sanitizer_drops_nonfinite_frames_witness :
    (exFramesC3.countP (fun f => !(frameValid f)) = 1)
    ∧ ((sanitizeLists exK exFramesC3).1.length = exFramesC3.length - 1
      ∧ (sanitizeLists exK exFramesC3).2.1.length = exFramesC3.length - 1
      ∧ (sanitizeLists exK exFramesC3).2.2.1.length = exFramesC3.length - 1
      ∧ (sanitizeLists exK exFramesC3).2.2.2.length = exFramesC3.length - 1) :=
  ⟨by decide, (sanitizer_drops_nonfinite_frames exK exFramesC3).2.2 (by decide)⟩

/-- C4: on every successful run, the applied scale equals
`1 / max |translation|` over all centered poses times the configured
multiplier when auto-scaling is enabled, and just the multiplier otherwise;
every output camera pose is a centered pose with only its translation column
multiplied by that scale (rotation block untouched). -/
theorem scale_factor_translation_only (cfg : ScanNetDataParserConfig) (K : Mat3)
    (frames : List RawFrame) (pts cols : List Pt3) (split : String)
    (out : DataparserOutputs)
    (hf1 : 0 < cfg.trainSplitFraction) (hf2 : cfg.trainSplitFraction ≤ 1)
    (hgen : generateDataparserOutputs cfg K frames pts cols split = .ok out) :
    (cfg.autoScalePoses = true →
      out.dataparserScale
        = 1 / maxAbsTranslation
            (autoOrientAndCenterPoses (sanitizeLists K frames).2.2.2 cfg.centerMethod).1
          * cfg.scaleFactor)
    ∧ (cfg.autoScalePoses = false → out.dataparserScale = cfg.scaleFactor)
    ∧ (∀ p ∈ out.cameraToWorlds,
        ∃ q ∈ (autoOrientAndCenterPoses (sanitizeLists K frames).2.2.2 cfg.centerMethod).1,
          p = scalePose out.dataparserScale q)
    ∧ (∀ (s : ℚ) (p : Pose3) (i : Fin 3) (j : Fin 4), j.val ≠ 3 → scalePose s p i j = p i j)
    ∧ (∀ (s : ℚ) (p : Pose3) (i : Fin 3), scalePose s p i 3 = s * p i 3) := by
  obtain ⟨indices, scale, hsel, hne, hscale, hout⟩ := generate_ok_inv hgen
  have hsv : (cfg.autoScalePoses = true →
        scale = 1 / maxAbsTranslation
            (autoOrientAndCenterPoses (sanitizeLists K frames).2.2.2 cfg.centerMethod).1
          * cfg.scaleFactor)
      ∧ (cfg.autoScalePoses = false → scale = cfg.scaleFactor) := by
    unfold computeScaleFactor at hscale
    constructor
    · intro ha
      rw [ha] at hscale
      simp only [if_true] at hscale
      split at hscale
      · exact absurd hscale (by simp)
      · exact (Except.ok.inj hscale).symm
    · intro ha
      rw [ha] at hscale
      simp only [Bool.false_eq_true, if_false] at hscale
      have := (Except.ok.inj hscale).symm
      rw [this, one_mul]
  subst hout
  refine ⟨by simpa using hsv.1, by simpa using hsv.2, ?_, ?_, ?_⟩
  · intro p hp
    simp only [assemble_c2w, List.mem_map] at hp
    obtain ⟨i, hi, rfl⟩ := hp
    have hidx : i < (sanitizeLists K frames).1.length := by
      have hle : numTrainImages (sanitizeLists K frames).1.length cfg.trainSplitFraction
          ≤ (sanitizeLists K frames).1.length := numTrain_le hf1.le hf2
      rcases select_ok_cases hsel with rfl | rfl
      · exact iTrain_bound hle i hi
      · exact ((iEval_mem _ _ i).1 hi).1
    have hlen : i < ((autoOrientAndCenterPoses (sanitizeLists K frames).2.2.2
        cfg.centerMethod).1.map (scalePose scale)).length := by
      simp [autoOrientAndCenterPoses, sanitize_poses_length K frames]
      omega
    rw [List.getD_eq_getElem _ _ hlen]
    have hlen2 : i < (autoOrientAndCenterPoses (sanitizeLists K frames).2.2.2
        cfg.centerMethod).1.length := by
      simpa using hlen
    refine ⟨(autoOrientAndCenterPoses (sanitizeLists K frames).2.2.2 cfg.centerMethod).1[i],
      List.getElem_mem _, ?_⟩
    simp [List.getElem_map]
  · intro s p i j hj
    simp [scalePose, hj]
  · intro s p i
    simp [scalePose, show ((3 : Fin 4)).val = 3 from rfl]

theorem scale_factor_translation_only_witness :
    (0 < exCfg.trainSplitFraction ∧ exCfg.trainSplitFraction ≤ 1
      ∧ generateDataparserOutputs exCfg exK exFrames exPts exCols "train" = .ok exOutV)
    ∧ ((exCfg.autoScalePoses = true →
        exOutV.dataparserScale
          = 1 / maxAbsTranslation
              (autoOrientAndCenterPoses (sanitizeLists exK exFrames).2.2.2
                exCfg.centerMethod).1
            * exCfg.scaleFactor)
      ∧ (exCfg.autoScalePoses = false → exOutV.dataparserScale = exCfg.scaleFactor)
      ∧ (∀ p ∈ exOutV.cameraToWorlds,
          ∃ q ∈ (autoOrientAndCenterPoses (sanitizeLists exK exFrames).2.2.2
              exCfg.centerMethod).1,
            p = scalePose exOutV.dataparserScale q)
      ∧ (∀ (s : ℚ) (p : Pose3) (i : Fin 3) (j : Fin 4), j.val ≠ 3 → scalePose s p i j = p i j)
      ∧ (∀ (s : ℚ) (p : Pose3) (i : Fin 3), scalePose s p i 3 = s * p i 3)) :=
  ⟨⟨exCfg_hf1, exCfg_hf2, exGen_eq⟩,
    scale_factor_translation_only exCfg exK exFrames exPts exCols "train" exOutV
      exCfg_hf1 exCfg_hf2 exGen_eq⟩

/-- C5: on a 4x4 homogeneous pose with bottom row (0,0,0,1), the convention
flip negates exactly columns 1 and 2 of the first three rows and changes
nothing else: column 0, column 3 and row 3 are unchanged. -/
theorem flip_negates_columns_one_two (p : Pose4)
    (hb : p 3 0 = 0 ∧ p 3 1 = 0 ∧ p 3 2 = 0 ∧ p 3 3 = 1) :
    (∀ i : Fin 4, i.val < 3 → flipMat p i 1 = -(p i 1) ∧ flipMat p i 2 = -(p i 2))
    ∧ (∀ i : Fin 4, flipMat p i 0 = p i 0 ∧ flipMat p i 3 = p i 3)
    ∧ (∀ j : Fin 4, flipMat p 3 j = p 3 j) := by
  refine ⟨?_, ?_, ?_⟩
  · intro i hi
    constructor <;> simp [flipMat, hi]
  · intro i
    constructor <;>
      simp [flipMat, show (0 : Fin 4) ≠ 1 from by decide, show (0 : Fin 4) ≠ 2 from by decide,
        show (3 : Fin 4) ≠ 1 from by decide, show (3 : Fin 4) ≠ 2 from by decide]
  · intro j
    simp [flipMat, show ((3 : Fin 4)).val = 3 from rfl]

theorem flip_negates_columns_one_two_witness :
    (exIdPose 3 0 = 0 ∧ exIdPose 3 1 = 0 ∧ exIdPose 3 2 = 0 ∧ exIdPose 3 3 = 1)
    ∧ ((∀ i : Fin 4, i.val < 3 →
          flipMat exIdPose i 1 = -(exIdPose i 1) ∧ flipMat exIdPose i 2 = -(exIdPose i 2))
      ∧ (∀ i : Fin 4, flipMat exIdPose i 0 = exIdPose i 0
          ∧ flipMat exIdPose i 3 = exIdPose i 3)
      ∧ (∀ j : Fin 4, flipMat exIdPose 3 j = exIdPose 3 j)) :=
  ⟨⟨rfl, rfl, rfl, rfl⟩, flip_negates_columns_one_two exIdPose ⟨rfl, rfl, rfl, rfl⟩⟩

/-- C6: on every successful run that loads a non-empty point cloud, each
output position is the input position homogenized, right-multiplied by the
transpose of the normalization transform and then multiplied by the scalar
scale — the very transform and scale recorded in the output bundle and
applied to the camera poses of the same invocation. -/
theorem point_cloud_same_transform_scale (cfg : ScanNetDataParserConfig) (K : Mat3)
    (frames : List RawFrame) (pts cols : List Pt3) (split : String)
    (out : DataparserOutputs)
    (hload : cfg.load3DPoints = true) (hpts : pts.length ≠ 0)
    (hgen : generateDataparserOutputs cfg K frames pts cols split = .ok out) :
    out.dataparserTransform
      = (autoOrientAndCenterPoses (sanitizeLists K frames).2.2.2 cfg.centerMethod).2
    ∧ out.points3Dxyz
      = some (pts.map (fun p => fun i =>
          out.dataparserScale * transformPoint out.dataparserTransform p i)) := by
  obtain ⟨indices, scale, hsel, hne, hscale, hout⟩ := generate_ok_inv hgen
  subst hout
  refine ⟨by simp, ?_⟩
  simp [assemble_xyz, hload, load3DPoints, hpts]

theorem point_cloud_same_transform_scale_witness :
    (exCfg.load3DPoints = true ∧ exPts.length ≠ 0
      ∧ generateDataparserOutputs exCfg exK exFrames exPts exCols "train" = .ok exOutV)
    ∧ (exOutV.dataparserTransform
        = (autoOrientAndCenterPoses (sanitizeLists exK exFrames).2.2.2 exCfg.centerMethod).2
      ∧ exOutV.points3Dxyz
        = some (exPts.map (fun p => fun i =>
            exOutV.dataparserScale * transformPoint exOutV.dataparserTransform p i))) :=
  ⟨⟨rfl, by decide, exGen_eq⟩,
    point_cloud_same_transform_scale exCfg exK exFrames exPts exCols "train" exOutV
      rfl (by decide) exGen_eq⟩

/-- C7 fails as stated: with 10 valid frames and train fraction 9/10, the
eval index set is not {5} and the train index set is not
{0,1,2,3,4,6,7,8,9}; `np.linspace(0, 9, 9, dtype=int)` truncates 4.5 to 4 and
5.625 to 5, keeping index 5 in train and leaving index 8 for eval. -/
theorem split_example_eval_not_five :
    iEvalList 10 (numTrainImages 10 (9/10)) ≠ [5]
    ∧ iTrainList 10 (numTrainImages 10 (9/10)) ≠ [0,1,2,3,4,6,7,8,9] := by
  have h : numTrainImages 10 (9/10) = 9 := by norm_num [numTrainImages]; rfl
  rw [h]
  constructor <;> decide

/-- C7 amended: with 10 valid frames and train fraction 9/10, num_train = 9,
the train index set is {0,1,2,3,4,5,6,7,9} and the eval index set is {8}. -/
theorem split_example_eval_is_eight :
    numTrainImages 10 (9/10) = 9
    ∧ iTrainList 10 (numTrainImages 10 (9/10)) = [0,1,2,3,4,5,6,7,9]
    ∧ iEvalList 10 (numTrainImages 10 (9/10)) = [8] := by
  have h : numTrainImages 10 (9/10) = 9 := by norm_num [numTrainImages]; rfl
  refine ⟨h, ?_, ?_⟩ <;> rw [h] <;> decide

/-- C8: "train" selects the train indices, "val" and "test" both select the
eval indices, and any other split string makes `_generate_dataparser_outputs`
fail with an error naming the invalid split, without returning a bundle. -/
theorem split_dispatch_behavior (cfg : ScanNetDataParserConfig) (K : Mat3)
    (frames : List RawFrame) (pts cols : List Pt3)
    (hf1 : 0 < cfg.trainSplitFraction) (hf2 : cfg.trainSplitFraction ≤ 1) :
    (∀ split, split ≠ "train" → split ≠ "val" → split ≠ "test" →
      generateDataparserOutputs cfg K frames pts cols split
        = .error ("Unknown dataparser split " ++ split))
    ∧ (∀ out, generateDataparserOutputs cfg K frames pts cols "train" = .ok out →
        out.imageFilenames
          = (iTrainList (sanitizeLists K frames).1.length
              (numTrainImages (sanitizeLists K frames).1.length cfg.trainSplitFraction)).map
              (fun i => (sanitizeLists K frames).1.getD i ""))
    ∧ (∀ out, generateDataparserOutputs cfg K frames pts cols "val" = .ok out →
        out.imageFilenames
          = (iEvalList (sanitizeLists K frames).1.length
              (numTrainImages (sanitizeLists K frames).1.length cfg.trainSplitFraction)).map
              (fun i => (sanitizeLists K frames).1.getD i ""))
    ∧ generateDataparserOutputs cfg K frames pts cols "val"
        = generateDataparserOutputs cfg K frames pts cols "test" := by
  refine ⟨?_, ?_, ?_, ?_⟩
  · intro split hs1 hs2 hs3
    unfold generateDataparserOutputs
    simp only []
    rw [if_pos (assert_passes hf1 hf2)]
    unfold selectSplitIndices
    rw [if_neg hs1, if_neg (by simp [hs2, hs3])]
  · intro out hgen
    obtain ⟨indices, scale, hsel, hne, hscale, hout⟩ := generate_ok_inv hgen
    have hind : indices = iTrainList (sanitizeLists K frames).1.length
        (numTrainImages (sanitizeLists K frames).1.length cfg.trainSplitFraction) := by
      have h0 : selectSplitIndices "train"
          (iTrainList (sanitizeLists K frames).1.length
            (numTrainImages (sanitizeLists K frames).1.length cfg.trainSplitFraction))
          (iEvalList (sanitizeLists K frames).1.length
            (numTrainImages (sanitizeLists K frames).1.length cfg.trainSplitFraction))
          = .ok (iTrainList (sanitizeLists K frames).1.length
            (numTrainImages (sanitizeLists K frames).1.length cfg.trainSplitFraction)) := rfl
      rw [h0] at hsel
      exact (Except.ok.inj hsel).symm
    subst hind hout
    simp
  · intro out hgen
    obtain ⟨indices, scale, hsel, hne, hscale, hout⟩ := generate_ok_inv hgen
    have hind : indices = iEvalList (sanitizeLists K frames).1.length
        (numTrainImages (sanitizeLists K frames).1.length cfg.trainSplitFraction) := by
      have h0 : selectSplitIndices "val"
          (iTrainList (sanitizeLists K frames).1.length
            (numTrainImages (sanitizeLists K frames).1.length cfg.trainSplitFraction))
          (iEvalList (sanitizeLists K frames).1.length
            (numTrainImages (sanitizeLists K frames).1.length cfg.trainSplitFraction))
          = .ok (iEvalList (sanitizeLists K frames).1.length
            (numTrainImages (sanitizeLists K frames).1.length cfg.trainSplitFraction)) := rfl
      rw [h0] at hsel
      exact (Except.ok.inj hsel).symm
    subst hind hout
    simp
  · unfold generateDataparserOutputs
    simp only [select_val_eq_test]

theorem split_dispatch_behavior_witness :
    (0 < exCfg.trainSplitFraction ∧ exCfg.trainSplitFraction ≤ 1)
    ∧ generateDataparserOutputs exCfg exK exFrames exPts exCols "foo"
        = .error ("Unknown dataparser split " ++ "foo") :=
  ⟨⟨exCfg_hf1, exCfg_hf2⟩,
    (split_dispatch_behavior exCfg exK exFrames exPts exCols exCfg_hf1 exCfg_hf2).1 "foo"
      (by decide) (by decide) (by decide)⟩

/-- C9 fails as stated: overriding the data root while leaving
`ply_file_path` at its default does not give `<root>/<root-name>.ply`; the
dataclass default was computed once from the class-level default `data`. -/
theorem ply_default_ignores_data_override :
    (mkScanNetConfig ["other", "root"] Option.none).plyFilePath
      ≠ FsPath.join (mkScanNetConfig ["other", "root"] Option.none).data
          (FsPath.name (mkScanNetConfig ["other", "root"] Option.none).data ++ ".ply") := by
  decide

/-- C9 amended: when `ply_file_path` is not overridden it always equals the
class-level default `<default-root>/<default-root-name>.ply`
(`nvsmask3d/data/scene_example/scene_example.ply`), whatever `data` is; this
coincides with `<root>/<root-name>.ply` exactly when `data` is left at its
default. -/
theorem ply_default_fixed_to_class_default (data : FsPath) :
    (mkScanNetConfig data Option.none).plyFilePath
        = FsPath.join defaultData (FsPath.name defaultData ++ ".ply")
    ∧ (mkScanNetConfig defaultData Option.none).plyFilePath
        = FsPath.join (mkScanNetConfig defaultData Option.none).data
            (FsPath.name (mkScanNetConfig defaultData Option.none).data ++ ".ply") :=
  ⟨rfl, rfl⟩

/-- C10: with auto-scaling enabled, a valid split name, at least one valid
frame, and all centered camera translations exactly zero, the scale
computation divides by zero and `_generate_dataparser_outputs` fails with
Python's float division-by-zero error instead of returning a bundle. -/
theorem zero_translation_division_error (cfg : ScanNetDataParserConfig) (K : Mat3)
    (frames : List RawFrame) (pts cols : List Pt3) (split : String)
    (hauto : cfg.autoScalePoses = true)
    (hf1 : 0 < cfg.trainSplitFraction) (hf2 : cfg.trainSplitFraction ≤ 1)
    (hsplit : split = "train" ∨ split = "val" ∨ split = "test")
    (hne : (sanitizeLists K frames).2.2.2.length ≠ 0)
    (hmax : maxAbsTranslation
        (autoOrientAndCenterPoses (sanitizeLists K frames).2.2.2 cfg.centerMethod).1 = 0) :
    generateDataparserOutputs cfg K frames pts cols split
      = .error "float division by zero" := by
  unfold generateDataparserOutputs generateAfterSplit
  simp only []
  rw [if_pos (assert_passes hf1 hf2)]
  rcases select_valid hsplit
      (iTrainList (sanitizeLists K frames).1.length
        (numTrainImages (sanitizeLists K frames).1.length cfg.trainSplitFraction))
      (iEvalList (sanitizeLists K frames).1.length
        (numTrainImages (sanitizeLists K frames).1.length cfg.trainSplitFraction))
    with e | e <;>
  · rw [e]
    simp only [hne, if_false]
    unfold computeScaleFactor
    simp [hauto, hmax]

theorem zero_translation_division_error_witness :
    (exCfg.autoScalePoses = true
      ∧ 0 < exCfg.trainSplitFraction ∧ exCfg.trainSplitFraction ≤ 1
      ∧ ("train" = "train" ∨ "train" = "val" ∨ "train" = "test")
      ∧ (sanitizeLists exK exFramesZero).2.2.2.length ≠ 0
      ∧ maxAbsTranslation
          (autoOrientAndCenterPoses (sanitizeLists exK exFramesZero).2.2.2
            exCfg.centerMethod).1 = 0)
    ∧ generateDataparserOutputs exCfg exK exFramesZero exPts exCols "train"
        = .error "float division by zero" :=
  ⟨⟨rfl, exCfg_hf1, exCfg_hf2, Or.inl rfl, by decide, exMaxZero⟩,
    zero_translation_division_error exCfg exK exFramesZero exPts exCols "train" rfl
      exCfg_hf1 exCfg_hf2 (Or.inl rfl) (by decide) exMaxZero⟩
